import Mathlib

/-!
Verification of the chat command dispatcher of a natural-language email
assistant backend.  The development shallowly embeds the dispatcher
(`process_chat_message` in `backend/routes/chat.py`), its keyword fallback
(`_has_keyword`), the intent classifier wrapper
(`AIService.process_natural_language_command` in `backend/utils/ai.py`) and
the provider-side lookup primitives (`GmailService.find_email_by_sender`,
`GmailService.find_email_by_subject` in `backend/utils/gmail.py`).

External collaborators (the Gmail transport and the language model) are
modelled as an explicit environment of pure functions; every provider call
made by the dispatcher is additionally recorded in a call trace, so that
claims about which provider operations run (and in what order) are
statements about the trace.
-/

deriving instance DecidableEq for Except

/-- An email record as produced by `GmailService._parse_message` and as
supplied by the caller in `email_context`.  All fields are strings; context
emails are modelled as complete records (the data model requires `id` and
treats every other field as a possibly empty string). -/
structure Email where
  id : String
  thread_id : Option String := none
  sender_name : String := ""
  sender_email : String := ""
  subject : String := ""
  body : String := ""
  date : String := ""
  snippet : String := ""
deriving Repr, DecidableEq

/-- The `parameters` mapping of a classified command.  The dispatcher reads
each key with `parameters.get(key, "")`, so a missing key and the empty
string are indistinguishable to it; we model the mapping as four string
fields defaulting to `""`. -/
structure Params where
  sender_email : String := ""
  subject_keyword : String := ""
  email_index : String := ""
  action_details : String := ""
deriving Repr, DecidableEq

/-- Result of `AIService.process_natural_language_command`: intent,
parameters, confidence, plus the error description present only on the
failure path. -/
structure CommandResult where
  intent : String := "unknown"
  parameters : Params := {}
  confidence : String := "low"
  error : Option String := none
deriving Repr, DecidableEq

/-- One call against the Gmail provider.  `deleteEmail` and `sendEmail`
are the destructive operations; the dispatcher claims are partly about
their absence from the trace. -/
inductive GmailCall
  | getRecent (maxResults : Nat)
  | findSender (sender : String)
  | findSubject (keyword : String)
  | deleteEmail (messageId : String)
  | sendEmail (recipient subject body : String) (threadId : Option String)
deriving Repr, DecidableEq

/-- The identifying stub of the original email carried in a
`display_reply` payload. -/
structure OrigStub where
  id : String
  sender_email : String
  sender_name : String
  subject : String
  thread_id : Option String
deriving Repr, DecidableEq

/-- The candidate email fields carried in a `confirm_delete` payload. -/
structure DeleteStub where
  id : String
  sender_name : String
  sender_email : String
  subject : String
deriving Repr, DecidableEq

/-- The action-specific `data` payload of a response envelope. -/
inductive RespData
  | emails (items : List (Email × String))
  | reply (draft : String) (original : OrigStub)
  | deleteCandidate (email : DeleteStub)
  | digest (text : String) (email_count : Nat)
deriving Repr, DecidableEq

/-- The response envelope assembled in `response_data` by
`process_chat_message`. -/
structure ResponseEnvelope where
  intent : String
  confidence : String
  message : String
  action : Option String
  data : Option RespData
deriving Repr, DecidableEq

/-- The external collaborators seen from the dispatcher: the intent
classifier, the Gmail wrapper and the language-model helpers.  `summarize`
returns `Except` because the dispatcher guards each per-email
summarization call with its own try/except. -/
structure Env where
  classify : String → List Email → CommandResult
  recentEmails : Nat → List Email
  findBySender : String → Option Email
  findBySubject : String → Option Email
  summarize : String → String → String → Except String String
  genReply : Email → String → String
  genDigest : List Email → String

/-- A word character in the sense of the regex `\b` boundary (ASCII
alphanumeric or underscore; all keywords and claims here are ASCII). -/
def isWordChar (c : Char) : Bool :=
  c.isAlphanum || c == '_'

/-- A `\b` boundary holds next to the absent character (text edge) or next
to a non-word character. -/
def boundary : Option Char → Bool
  | none => true
  | some c => !isWordChar c

/-- First list is a prefix of the second (executable). -/
def startsWith : List Char → List Char → Bool
  | [], _ => true
  | _ :: _, [] => false
  | a :: as, b :: bs => a == b && startsWith as bs

/-- Scan of `re.search(rf"\b{kw}\b", text)` for a word-character keyword:
`prev` is the character immediately before the remaining text. -/
def hasWordFrom (kw : List Char) : Option Char → List Char → Bool
  | prev, [] => boundary prev && startsWith kw []
  | prev, c :: rest =>
      (boundary prev && startsWith kw (c :: rest)
        && boundary (List.drop kw.length (c :: rest)).head?)
      || hasWordFrom kw (some c) rest

/-- Embedding of `_has_keyword` (chat.py): whole-word keyword match over
the user message, any keyword in the list sufficing. -/
def _has_keyword (user_message : String) (keywords : List String) : Bool :=
  keywords.any fun kw => hasWordFrom kw.data none user_message.data

/-- Python substring containment (`needle in haystack`), on char lists. -/
def containsSub (needle : List Char) : List Char → Bool
  | [] => startsWith needle []
  | c :: rest => startsWith needle (c :: rest) || containsSub needle rest

/-- Python substring containment on strings. -/
def strContains (haystack needle : String) : Bool :=
  containsSub needle.data haystack.data

/-- Python truthiness-plus-`str.isdigit` guard
(`email_index and email_index.isdigit()`): nonempty and all digits. -/
def pyIsDigit (s : String) : Bool :=
  !s.isEmpty && s.data.all fun c => c.isDigit

/-- Python `str.lower()` (character-wise lowercasing; ASCII suffices for
every comparison in this development). -/
def pyLower (s : String) : String :=
  String.mk (s.data.map Char.toLower)

/-- Python `str.strip()`: drop leading and trailing whitespace. -/
def pyStrip (s : String) : String :=
  String.mk
    (((s.data.dropWhile Char.isWhitespace).reverse.dropWhile
      Char.isWhitespace).reverse)

/-- Python `int(s)` on a string of digits. -/
def pyToNat (s : String) : Nat :=
  s.data.foldl (fun n c => n * 10 + (c.toNat - 48)) 0

/-- The lower-cased, stripped user message
(`request.message.lower().strip()`). -/
def normalizeMessage (message : String) : String :=
  pyStrip (pyLower message)

example : _has_keyword "please delete it" ["delete", "remove"] = true := by decide
example : _has_keyword "the undelete tool" ["delete", "remove"] = false := by decide
example : strContains "show many" "many" = true := by decide
example : pyIsDigit "" = false ∧ pyIsDigit "12" = true ∧ pyIsDigit "1a" = false := by decide

/-- Positional selection from the context list: `idx = int(email_index) - 1`
selects `email_context[idx]` when `0 <= idx < len(email_context)`. -/
def contextIndexTarget (email_index : String) (email_context : List Email) :
    Option Email :=
  let idx : Int := ((pyToNat email_index : Nat) : Int) - 1
  if 0 ≤ idx ∧ idx < (email_context.length : Int) then
    email_context.get? idx.toNat
  else
    none

/-- Context-side target resolution of the reply branch (chat.py lines
106-115): an `if email_context:` guard, then the index branch when
`email_index` is a nonempty digit string (an out-of-range index leaves the
target unresolved without falling into the sender scan), else the sender
scan (first context email whose lower-cased address contains the
lower-cased parameter as a substring). -/
def replyContextTarget (parameters : Params) (email_context : List Email) :
    Option Email :=
  if email_context.isEmpty then none
  else if pyIsDigit parameters.email_index then
    contextIndexTarget parameters.email_index email_context
  else if parameters.sender_email ≠ "" then
    email_context.find? fun e =>
      strContains (pyLower e.sender_email) (pyLower parameters.sender_email)
  else none

/-- Context-side target resolution of the delete branch (chat.py lines
148-162): like the reply branch with one more `elif` arm scanning subjects
for `subject_keyword` (case-insensitive substring). -/
def deleteContextTarget (parameters : Params) (email_context : List Email) :
    Option Email :=
  if email_context.isEmpty then none
  else if pyIsDigit parameters.email_index then
    contextIndexTarget parameters.email_index email_context
  else if parameters.sender_email ≠ "" then
    email_context.find? fun e =>
      strContains (pyLower e.sender_email) (pyLower parameters.sender_email)
  else if parameters.subject_keyword ≠ "" then
    email_context.find? fun e =>
      strContains (pyLower e.subject) (pyLower parameters.subject_keyword)
  else none

/-- Full reply-branch resolution: context first, then
`if not target_email and sender_email: find_email_by_sender(...)`.
Returns the target and the provider calls made. -/
def replyResolve (env : Env) (parameters : Params)
    (email_context : List Email) : Option Email × List GmailCall :=
  match replyContextTarget parameters email_context with
  | some e => (some e, [])
  | none =>
    if parameters.sender_email ≠ "" then
      (env.findBySender parameters.sender_email,
       [GmailCall.findSender parameters.sender_email])
    else (none, [])

/-- Full delete-branch resolution (chat.py lines 165-169): context first,
then `if sender_email: find_email_by_sender(...) elif subject_keyword:
find_email_by_subject(...)` — the provider branch is chosen on key
presence, not on the sender search's outcome. -/
def deleteResolve (env : Env) (parameters : Params)
    (email_context : List Email) : Option Email × List GmailCall :=
  match deleteContextTarget parameters email_context with
  | some e => (some e, [])
  | none =>
    if parameters.sender_email ≠ "" then
      (env.findBySender parameters.sender_email,
       [GmailCall.findSender parameters.sender_email])
    else if parameters.subject_keyword ≠ "" then
      (env.findBySubject parameters.subject_keyword,
       [GmailCall.findSubject parameters.subject_keyword])
    else (none, [])

/-- The `max_results` heuristic of the read branch: default 5; "few"/"some"
keeps 5; else "many"/"all"/"20" (plain substring tests) selects 20. -/
def readMaxResults (user_message : String) : Nat :=
  if strContains user_message "few" || strContains user_message "some" then 5
  else if strContains user_message "many" || strContains user_message "all"
      || strContains user_message "20" then 20
  else 5

/-- The fixed placeholder substituted when a per-email summarization call
throws (chat.py line 91). -/
def summaryPlaceholder : String := "Unable to generate summary."

/-- Per-email summarization of the read branch: each email is summarized
independently under its own try/except, a failure substituting the fixed
placeholder for that email only. -/
def summarizeEmails
    (summarize : String → String → String → Except String String)
    (emails : List Email) : List (Email × String) :=
  emails.map fun e =>
    match summarize e.body e.subject e.sender_name with
    | Except.ok s => (e, s)
    | Except.error _ => (e, summaryPlaceholder)

/-- The empty envelope `response_data` is initialized to, carrying the
classifier's intent and confidence. -/
def baseEnvelope (command_result : CommandResult) : ResponseEnvelope :=
  { intent := command_result.intent
    confidence := command_result.confidence
    message := ""
    action := none
    data := none }

/-- Read branch (chat.py lines 70-95). -/
def readBranch (env : Env) (base : ResponseEnvelope)
    (user_message : String) : ResponseEnvelope × List GmailCall :=
  let max_results := readMaxResults user_message
  let emails := env.recentEmails max_results
  let items := summarizeEmails env.summarize emails
  ({ base with
      message := "I found " ++ toString emails.length
        ++ " recent emails. Here they are:"
      action := some "display_emails"
      data := some (RespData.emails items) },
   [GmailCall.getRecent max_results])

/-- The guidance message of a reply-branch resolution miss. -/
def replyMissMessage : String :=
  "I couldn't find the email you want to reply to. Please try fetching your recent emails first or be more specific about which email to reply to."

/-- Reply branch (chat.py lines 97-137). -/
def replyBranch (env : Env) (base : ResponseEnvelope) (parameters : Params)
    (email_context : List Email) : ResponseEnvelope × List GmailCall :=
  let r := replyResolve env parameters email_context
  match r.fst with
  | some e =>
    ({ base with
        message := "Here's a suggested reply to the email from "
          ++ e.sender_name ++ ":"
        action := some "display_reply"
        data := some (RespData.reply (env.genReply e parameters.action_details)
          { id := e.id
            sender_email := e.sender_email
            sender_name := e.sender_name
            subject := e.subject
            thread_id := e.thread_id }) },
     r.snd)
  | none =>
    ({ base with message := replyMissMessage, action := some "error" }, r.snd)

/-- The guidance message of a delete-branch resolution miss. -/
def deleteMissMessage : String :=
  "I couldn't find the email you want to delete. Please try fetching your recent emails first or be more specific."

/-- Delete branch (chat.py lines 139-184): a resolved target is never
deleted; the branch only emits a `confirm_delete` envelope with the
candidate's identifying fields. -/
def deleteBranch (env : Env) (base : ResponseEnvelope) (parameters : Params)
    (email_context : List Email) : ResponseEnvelope × List GmailCall :=
  let r := deleteResolve env parameters email_context
  match r.fst with
  | some e =>
    ({ base with
        message := "I found the email from " ++ e.sender_name
          ++ " with subject '" ++ e.subject
          ++ "'. Are you sure you want to delete it?"
        action := some "confirm_delete"
        data := some (RespData.deleteCandidate
          { id := e.id
            sender_name := e.sender_name
            sender_email := e.sender_email
            subject := e.subject }) },
     r.snd)
  | none =>
    ({ base with message := deleteMissMessage, action := some "error" }, r.snd)

/-- Digest branch (chat.py lines 186-193): always fetches 20 recent
emails, builds the digest over the full batch, and reports the batch
size. -/
def digestBranch (env : Env) (base : ResponseEnvelope) :
    ResponseEnvelope × List GmailCall :=
  let emails := env.recentEmails 20
  let digest := env.genDigest emails
  ({ base with
      message := "Here's your daily email digest:"
      action := some "display_digest"
      data := some (RespData.digest digest emails.length) },
   [GmailCall.getRecent 20])

/-- The fixed fallback message listing the supported commands (chat.py
lines 197-203, verbatim including the source file's literal byte
sequence rendering the bullets). -/
def infoMessage : String :=
  "I'm your AI email assistant! I can help you with:\n            \nâ€¢ **Read emails**: \"Show me my recent emails\" or \"Fetch last 5 emails\"\nâ€¢ **Generate replies**: \"Reply to John\" or \"Generate a reply to the latest email from [sender]\"\nâ€¢ **Delete emails**: \"Delete the latest email from [sender]\" or \"Delete email number 2\"\n\nTry asking me to fetch your emails first, and then I can help you reply or delete specific ones!"

/-- The five dispatch outcomes of the if/elif chain. -/
inductive Branch
  | read
  | reply
  | delete
  | digest
  | fallback
deriving Repr, DecidableEq

/-- The dispatcher's if/elif chain (chat.py lines 70, 97, 139, 186, 195):
branches are tested in the fixed order read, reply, delete, digest, each
condition being `classifier intent == X or _has_keyword(user_message,
keywords_X)`; the first true condition wins, else the fallback. -/
def selectBranch (intent : String) (user_message : String) : Branch :=
  if intent == "read" || _has_keyword user_message ["read", "show", "fetch"] then
    Branch.read
  else if intent == "reply" || _has_keyword user_message ["reply", "respond"] then
    Branch.reply
  else if intent == "delete" || _has_keyword user_message ["delete", "remove"] then
    Branch.delete
  else if intent == "digest" || _has_keyword user_message ["digest", "summary"] then
    Branch.digest
  else
    Branch.fallback

/-- Embedding of `process_chat_message` (chat.py lines 41-207), after
credential resolution: normalize the message, classify, dispatch through
the if/elif chain, and return the envelope together with the trace of
Gmail provider calls made. -/
def process_chat_message (env : Env) (message : String)
    (email_context : List Email) : ResponseEnvelope × List GmailCall :=
  let user_message := normalizeMessage message
  let command_result := env.classify message email_context
  let base := baseEnvelope command_result
  match selectBranch command_result.intent user_message with
  | Branch.read => readBranch env base user_message
  | Branch.reply => replyBranch env base command_result.parameters email_context
  | Branch.delete => deleteBranch env base command_result.parameters email_context
  | Branch.digest => digestBranch env base
  | Branch.fallback =>
    ({ base with message := infoMessage, action := some "info" }, [])

/-- Embedding of `AIService.process_natural_language_command` (ai.py lines
104-156): the whole body runs under one try/except; `llmOutcome` abstracts
the chat-completion round trip plus JSON parsing (its error covers a
transport failure, a `None` content, and unparsable JSON), and the except
arm returns the fixed unknown/low record with the error description. -/
def process_natural_language_command
    (llmOutcome : Except String CommandResult) : CommandResult :=
  match llmOutcome with
  | Except.ok result => result
  | Except.error e =>
    { intent := "unknown"
      parameters := {}
      confidence := "low"
      error := some e }

/-- Outcome of one Gmail API call: a value or a caught `HttpError`. -/
inductive GmailResult (α : Type)
  | ok (value : α)
  | httpError (message : String)

/-- Embedding of `GmailService.find_email_by_sender` (gmail.py lines
167-189): list matching message ids, return `None` when the list is empty,
else fetch and parse the first; a `HttpError` raised by either call is
caught and turned into `None`. -/
def find_email_by_sender (listResult : GmailResult (List String))
    (getResult : String → GmailResult Email) : Option Email :=
  match listResult with
  | GmailResult.httpError _ => none
  | GmailResult.ok [] => none
  | GmailResult.ok (m :: _) =>
    match getResult m with
    | GmailResult.httpError _ => none
    | GmailResult.ok e => some e

/-- Embedding of `GmailService.find_email_by_subject` (gmail.py lines
191-213): identical control flow to the sender search, over the
subject query. -/
def find_email_by_subject (listResult : GmailResult (List String))
    (getResult : String → GmailResult Email) : Option Email :=
  match listResult with
  | GmailResult.httpError _ => none
  | GmailResult.ok [] => none
  | GmailResult.ok (m :: _) =>
    match getResult m with
    | GmailResult.httpError _ => none
    | GmailResult.ok e => some e

/-- The character standing immediately before a match position: the last
character of the consumed text `pre`, or the scan's incoming `prev`
character when nothing has been consumed. -/
def lastOr (prev : Option Char) (pre : List Char) : Option Char :=
  match pre.getLast? with
  | some c => some c
  | none => prev

/-- Declarative reading of a whole-word regex match: the keyword occurs in
the text with a word boundary on each side. -/
def occursAsWord (kw text : List Char) : Prop :=
  ∃ pre post, text = pre ++ kw ++ post ∧
    boundary pre.getLast? = true ∧ boundary post.head? = true

/-- A numbered test email with distinct field contents. -/
def mkEmail (i : Nat) : Email :=
  { id := "R" ++ toString i
    sender_name := "name" ++ toString i
    sender_email := "user" ++ toString i ++ "@x.com"
    subject := "subj" ++ toString i
    body := "body" ++ toString i }

/-- A test environment with a fixed classifier answer, deterministic
mailbox contents, and total language-model helpers. -/
def baseTestEnv (cr : CommandResult) : Env :=
  { classify := fun _ _ => cr
    recentEmails := fun n => (List.range n).map mkEmail
    findBySender := fun _ => none
    findBySubject := fun _ => none
    summarize := fun _ _ _ => Except.ok "fine"
    genReply := fun _ _ => "draft"
    genDigest := fun _ => "digest text" }

/-- Test email from Alice. -/
def emailAlice : Email :=
  { id := "A1", sender_name := "Alice", sender_email := "alice@x.com",
    subject := "Lunch" }

/-- Test email from Bob. -/
def emailBob : Email :=
  { id := "B2", sender_name := "Bob", sender_email := "bob@x.com",
    subject := "Invoice 42" }

/-- Test email from Carol. -/
def emailCarol : Email :=
  { id := "C3", sender_name := "Carol", sender_email := "carol@x.com",
    subject := "Report" }

/-- Test environment for the delete provider fallback: the classifier
extracted both a sender and a subject keyword, the provider sender search
finds nothing, and the provider subject search would find Bob's
invoice. -/
def envDeleteSenderSubject : Env :=
  { baseTestEnv
      { intent := "delete"
        parameters := { sender_email := "bob@x.com", subject_keyword := "invoice" }
        confidence := "high" } with
    findBySubject := fun k => if k == "invoice" then some emailBob else none }

/-- Test environment for the reply index fall-through: the classifier
extracted an out-of-range index together with a sender string that does
match a context email, and the provider sender search finds nothing. -/
def envReplyIdx5 : Env :=
  baseTestEnv
    { intent := "reply"
      parameters := { sender_email := "alice", email_index := "5" }
      confidence := "high" }

/-- The batch of five test emails fetched by the read branch. -/
def emailsFive : List Email := (List.range 5).map mkEmail

/-- Test environment for summarization isolation: summarizing the email
whose body is "body2" throws; every other summarization succeeds. -/
def envReadFail : Env :=
  { baseTestEnv { intent := "read", confidence := "high" } with
    summarize := fun b _ _ =>
      if b == "body2" then Except.error "boom"
      else Except.ok ("sum " ++ b) }

/-- Test environment for the reply provider miss: the classifier extracted
a sender that matches nothing, with no context. -/
def envReplyProviderMiss : Env :=
  baseTestEnv { intent := "reply", parameters := { sender_email := "zed@x.com" } }

/-- `startsWith` decides list-prefix decomposition. -/
theorem startsWith_iff (a b : List Char) :
    startsWith a b = true ↔ ∃ t, b = a ++ t := by
  induction a generalizing b with
  | nil =>
    simp [startsWith]
  | cons x as ih =>
    cases b with
    | nil =>
      simp [startsWith]
    | cons y bs =>
      simp only [startsWith, Bool.and_eq_true, beq_iff_eq, ih,
        List.cons_append, List.cons.injEq]
      constructor
      · rintro ⟨hxy, t, ht⟩
        exact ⟨t, hxy.symm, ht⟩
      · rintro ⟨t, hxy, ht⟩
        exact ⟨hxy.symm, t, ht⟩

/-- Consuming one character updates the before-the-match character. -/
theorem lastOr_cons (prev : Option Char) (c : Char) (pre : List Char) :
    lastOr prev (c :: pre) = lastOr (some c) pre := by
  cases pre with
  | nil => rfl
  | cons d t =>
    unfold lastOr
    rw [List.getLast?_cons_cons]
    cases h : (d :: t).getLast? with
    | some x => rfl
    | none => simp at h

/-- With no incoming character the before-the-match character is the
consumed text's last character. -/
theorem lastOr_none (pre : List Char) : lastOr none pre = pre.getLast? := by
  cases h : pre.getLast? <;> simp [lastOr, h]

/-- The scan `hasWordFrom` is exactly the declarative whole-word match:
the keyword occurs with a word boundary on each side, the left boundary
judged against the scan's incoming previous character. -/
theorem hasWordFrom_iff (kw : List Char) (text : List Char) :
    ∀ prev, hasWordFrom kw prev text = true ↔
      ∃ pre post, text = pre ++ kw ++ post ∧
        boundary (lastOr prev pre) = true ∧ boundary post.head? = true := by
  induction text with
  | nil =>
    intro prev
    constructor
    · intro h
      simp only [hasWordFrom, Bool.and_eq_true] at h
      obtain ⟨hb, hs⟩ := h
      obtain ⟨t, ht⟩ := (startsWith_iff kw []).mp hs
      obtain ⟨hkw, hht⟩ := List.append_eq_nil.mp ht.symm
      refine ⟨[], [], by simp [hkw], ?_, rfl⟩
      simpa [lastOr] using hb
    · rintro ⟨pre, post, heq, hb, hp⟩
      obtain ⟨h1, h2⟩ := List.append_eq_nil.mp heq.symm
      obtain ⟨h3, h4⟩ := List.append_eq_nil.mp h1
      subst h2; subst h3; subst h4
      simpa [hasWordFrom, startsWith, lastOr] using hb
  | cons c rest ih =>
    intro prev
    simp only [hasWordFrom, Bool.or_eq_true, Bool.and_eq_true]
    constructor
    · rintro (⟨⟨hbp, hsw⟩, hba⟩ | hrec)
      · obtain ⟨t, ht⟩ := (startsWith_iff kw (c :: rest)).mp hsw
        refine ⟨[], t, by simpa using ht, by simpa [lastOr] using hbp, ?_⟩
        rw [ht, List.drop_left] at hba
        exact hba
      · obtain ⟨pre, post, heq, hb, hp⟩ := (ih (some c)).mp hrec
        refine ⟨c :: pre, post, by simp [heq], ?_, hp⟩
        rwa [lastOr_cons]
    · rintro ⟨pre, post, heq, hb, hp⟩
      cases pre with
      | nil =>
        left
        simp only [List.nil_append] at heq
        refine ⟨⟨by simpa [lastOr] using hb,
          (startsWith_iff kw (c :: rest)).mpr ⟨post, heq⟩⟩, ?_⟩
        rw [heq, List.drop_left]
        exact hp
      | cons c' pre' =>
        right
        simp only [List.cons_append, List.cons.injEq] at heq
        obtain ⟨hc, hrest⟩ := heq
        subst hc
        refine (ih (some c)).mpr ⟨pre', post, hrest, ?_, hp⟩
        rwa [lastOr_cons] at hb

/-- The deterministic keyword fallback `_has_keyword` matches exactly when
some keyword of the list occurs in the message as a whole word —
word-boundary-safe, never a bare substring hit. -/
theorem _has_keyword_iff (user_message : String) (keywords : List String) :
    _has_keyword user_message keywords = true ↔
      ∃ kw ∈ keywords, occursAsWord kw.data user_message.data := by
  simp only [_has_keyword, List.any_eq_true]
  constructor
  · rintro ⟨kw, hmem, hscan⟩
    obtain ⟨pre, post, heq, hb, hp⟩ :=
      (hasWordFrom_iff kw.data user_message.data none).mp hscan
    rw [lastOr_none] at hb
    exact ⟨kw, hmem, pre, post, heq, hb, hp⟩
  · rintro ⟨kw, hmem, pre, post, heq, hb, hp⟩
    refine ⟨kw, hmem, (hasWordFrom_iff kw.data user_message.data none).mpr
      ⟨pre, post, heq, ?_, hp⟩⟩
    rwa [lastOr_none]

/-- Dispatch equation: a message selected into the read branch is handled
by `readBranch`. -/
theorem dispatch_read (env : Env) (message : String)
    (email_context : List Email)
    (hb : selectBranch (env.classify message email_context).intent
      (normalizeMessage message) = Branch.read) :
    process_chat_message env message email_context =
      readBranch env (baseEnvelope (env.classify message email_context))
        (normalizeMessage message) := by
  simp only [process_chat_message, hb]

/-- Dispatch equation: a message selected into the reply branch is handled
by `replyBranch`. -/
theorem dispatch_reply (env : Env) (message : String)
    (email_context : List Email)
    (hb : selectBranch (env.classify message email_context).intent
      (normalizeMessage message) = Branch.reply) :
    process_chat_message env message email_context =
      replyBranch env (baseEnvelope (env.classify message email_context))
        (env.classify message email_context).parameters email_context := by
  simp only [process_chat_message, hb]

/-- Dispatch equation: a message selected into the delete branch is handled
by `deleteBranch`. -/
theorem dispatch_delete (env : Env) (message : String)
    (email_context : List Email)
    (hb : selectBranch (env.classify message email_context).intent
      (normalizeMessage message) = Branch.delete) :
    process_chat_message env message email_context =
      deleteBranch env (baseEnvelope (env.classify message email_context))
        (env.classify message email_context).parameters email_context := by
  simp only [process_chat_message, hb]

/-- Dispatch equation: a message selected into the digest branch is handled
by `digestBranch`. -/
theorem dispatch_digest (env : Env) (message : String)
    (email_context : List Email)
    (hb : selectBranch (env.classify message email_context).intent
      (normalizeMessage message) = Branch.digest) :
    process_chat_message env message email_context =
      digestBranch env (baseEnvelope (env.classify message email_context)) := by
  simp only [process_chat_message, hb]

/-- Dispatch equation: with no branch condition true the dispatcher emits
the fixed info envelope and makes no provider call. -/
theorem dispatch_fallback (env : Env) (message : String)
    (email_context : List Email)
    (hb : selectBranch (env.classify message email_context).intent
      (normalizeMessage message) = Branch.fallback) :
    process_chat_message env message email_context =
      ({ baseEnvelope (env.classify message email_context) with
          message := infoMessage, action := some "info" }, []) := by
  simp only [process_chat_message, hb]

/-- Every provider call made by delete-branch resolution is one of the two
search primitives. -/
theorem deleteResolve_calls (env : Env) (parameters : Params)
    (email_context : List Email) :
    ∀ call ∈ (deleteResolve env parameters email_context).snd,
      (∃ s, call = GmailCall.findSender s) ∨
      (∃ s, call = GmailCall.findSubject s) := by
  intro call hmem
  unfold deleteResolve at hmem
  cases h : deleteContextTarget parameters email_context with
  | some e => simp [h] at hmem
  | none =>
    simp only [h] at hmem
    by_cases hs : parameters.sender_email = "" <;>
      by_cases hk : parameters.subject_keyword = "" <;>
      simp [hs, hk] at hmem <;>
      simp [hmem]

/-- Every provider call made by reply-branch resolution is the sender
search. -/
theorem replyResolve_calls (env : Env) (parameters : Params)
    (email_context : List Email) :
    ∀ call ∈ (replyResolve env parameters email_context).snd,
      ∃ s, call = GmailCall.findSender s := by
  intro call hmem
  unfold replyResolve at hmem
  cases h : replyContextTarget parameters email_context with
  | some e => simp [h] at hmem
  | none =>
    simp only [h] at hmem
    by_cases hs : parameters.sender_email = "" <;>
      simp [hs] at hmem <;>
      simp [hmem]

/-- Claim C3: the intent classifier `process_natural_language_command` is a
total function of the model-call outcome — it returns the parsed result on
success, and on any underlying failure (transport error, missing content,
unparsable structured response) it returns intent "unknown", empty
parameters, confidence "low" and an error description, instead of
raising. -/
theorem classifier_never_raises (result : CommandResult) (e : String) :
    process_natural_language_command (Except.ok result) = result
    ∧ process_natural_language_command (Except.error e) =
        { intent := "unknown", parameters := {}, confidence := "low",
          error := some e } :=
  ⟨rfl, rfl⟩

/-- Claim C8: every message dispatched to the digest branch fetches exactly
20 recent emails — the sole provider call of the request — and emits a
`display_digest` envelope whose data carries the digest text over the full
batch and the count of fetched emails. -/
theorem digest_fetches_twenty (env : Env) (message : String)
    (email_context : List Email)
    (hb : selectBranch (env.classify message email_context).intent
      (normalizeMessage message) = Branch.digest) :
    (process_chat_message env message email_context).snd =
      [GmailCall.getRecent 20]
    ∧ (process_chat_message env message email_context).fst.action =
        some "display_digest"
    ∧ (process_chat_message env message email_context).fst.data =
        some (RespData.digest (env.genDigest (env.recentEmails 20))
          (env.recentEmails 20).length) := by
  rw [dispatch_digest env message email_context hb]
  exact ⟨rfl, rfl, rfl⟩

/-- Witness for C8 at a concrete digest request. -/
theorem digest_fetches_twenty_witness :
    (process_chat_message (baseTestEnv { intent := "digest" })
      "give me a short digest" []).snd = [GmailCall.getRecent 20]
    ∧ (process_chat_message (baseTestEnv { intent := "digest" })
        "give me a short digest" []).fst.action = some "display_digest"
    ∧ (process_chat_message (baseTestEnv { intent := "digest" })
        "give me a short digest" []).fst.data =
        some (RespData.digest
          ((baseTestEnv { intent := "digest" }).genDigest
            ((baseTestEnv { intent := "digest" }).recentEmails 20))
          ((baseTestEnv { intent := "digest" }).recentEmails 20).length) :=
  digest_fetches_twenty (baseTestEnv { intent := "digest" })
    "give me a short digest" [] (by decide)

/-- Claim C9: when no branch condition holds — the classifier intent is
none of the four actions and no keyword set matches — the dispatcher
emits the fixed `info` envelope listing the supported commands and makes
no provider call. -/
theorem unknown_input_info_envelope (env : Env) (message : String)
    (email_context : List Email)
    (h1 : (env.classify message email_context).intent ≠ "read")
    (h2 : (env.classify message email_context).intent ≠ "reply")
    (h3 : (env.classify message email_context).intent ≠ "delete")
    (h4 : (env.classify message email_context).intent ≠ "digest")
    (k1 : _has_keyword (normalizeMessage message) ["read", "show", "fetch"] = false)
    (k2 : _has_keyword (normalizeMessage message) ["reply", "respond"] = false)
    (k3 : _has_keyword (normalizeMessage message) ["delete", "remove"] = false)
    (k4 : _has_keyword (normalizeMessage message) ["digest", "summary"] = false) :
    (process_chat_message env message email_context).fst.action = some "info"
    ∧ (process_chat_message env message email_context).fst.message = infoMessage
    ∧ (process_chat_message env message email_context).snd = [] := by
  have e1 := beq_eq_false_iff_ne.mpr h1
  have e2 := beq_eq_false_iff_ne.mpr h2
  have e3 := beq_eq_false_iff_ne.mpr h3
  have e4 := beq_eq_false_iff_ne.mpr h4
  have hb : selectBranch (env.classify message email_context).intent
      (normalizeMessage message) = Branch.fallback := by
    simp [selectBranch, e1, e2, e3, e4, k1, k2, k3, k4]
  rw [dispatch_fallback env message email_context hb]
  exact ⟨rfl, rfl, rfl⟩

/-- Witness for C9 at a concrete unrecognized request. -/
theorem unknown_input_info_envelope_witness :
    (process_chat_message (baseTestEnv {}) "hello there" []).fst.action =
      some "info"
    ∧ (process_chat_message (baseTestEnv {}) "hello there" []).fst.message =
        infoMessage
    ∧ (process_chat_message (baseTestEnv {}) "hello there" []).snd = [] :=
  unknown_input_info_envelope (baseTestEnv {}) "hello there" []
    (by decide) (by decide) (by decide) (by decide)
    (by decide) (by decide) (by decide) (by decide)

/-- Claim C1: a chat message dispatched to the delete branch with a
resolved target never triggers the destructive provider delete — the
dispatcher emits a `confirm_delete` envelope carrying the candidate's
id, sender name, sender address and subject, and the request's provider
call trace contains no delete operation. -/
theorem delete_is_two_phase (env : Env) (message : String)
    (email_context : List Email) (e : Email) (calls : List GmailCall)
    (hb : selectBranch (env.classify message email_context).intent
      (normalizeMessage message) = Branch.delete)
    (hres : deleteResolve env (env.classify message email_context).parameters
      email_context = (some e, calls)) :
    (process_chat_message env message email_context).fst.action =
      some "confirm_delete"
    ∧ (process_chat_message env message email_context).fst.data =
        some (RespData.deleteCandidate
          { id := e.id, sender_name := e.sender_name,
            sender_email := e.sender_email, subject := e.subject })
    ∧ ∀ i, GmailCall.deleteEmail i ∉
        (process_chat_message env message email_context).snd := by
  rw [dispatch_delete env message email_context hb]
  refine ⟨?_, ?_, ?_⟩
  · simp [deleteBranch, hres]
  · simp [deleteBranch, hres]
  · intro i hmem
    have hsnd : (deleteBranch env
        (baseEnvelope (env.classify message email_context))
        (env.classify message email_context).parameters email_context).snd =
        calls := by
      simp [deleteBranch, hres]
    rw [hsnd] at hmem
    have hc : GmailCall.deleteEmail i ∈
        (deleteResolve env (env.classify message email_context).parameters
          email_context).snd := by
      rw [hres]
      exact hmem
    rcases deleteResolve_calls env
      (env.classify message email_context).parameters email_context _ hc with
      ⟨s, h⟩ | ⟨s, h⟩ <;> simp at h

/-- Witness for C1 at a concrete delete request resolved from context. -/
theorem delete_is_two_phase_witness :
    (process_chat_message
      (baseTestEnv { intent := "delete", parameters := { email_index := "1" } })
      "please handle this" [emailAlice]).fst.action = some "confirm_delete"
    ∧ (process_chat_message
        (baseTestEnv { intent := "delete", parameters := { email_index := "1" } })
        "please handle this" [emailAlice]).fst.data =
        some (RespData.deleteCandidate
          { id := emailAlice.id, sender_name := emailAlice.sender_name,
            sender_email := emailAlice.sender_email,
            subject := emailAlice.subject })
    ∧ GmailCall.deleteEmail "A1" ∉
        (process_chat_message
          (baseTestEnv { intent := "delete", parameters := { email_index := "1" } })
          "please handle this" [emailAlice]).snd := by
  have h := delete_is_two_phase
    (baseTestEnv { intent := "delete", parameters := { email_index := "1" } })
    "please handle this" [emailAlice] emailAlice [] (by decide) (by decide)
  exact ⟨h.1, h.2.1, h.2.2 "A1"⟩

/-- An in-range one-based digit index selects the corresponding zero-based
context element. -/
theorem contextIndexTarget_in_range (email_index : String)
    (ctx : List Email) (h1 : 1 ≤ pyToNat email_index)
    (h2 : pyToNat email_index - 1 < ctx.length) :
    contextIndexTarget email_index ctx = ctx.get? (pyToNat email_index - 1) := by
  unfold contextIndexTarget
  have hc : 0 ≤ ((pyToNat email_index : Nat) : Int) - 1
      ∧ ((pyToNat email_index : Nat) : Int) - 1 < (ctx.length : Int) := by
    constructor <;> omega
  rw [if_pos hc]
  congr 1
  omega

/-- Claim C6: in both the reply and the delete branch, a digit
`email_index` that validly indexes the context list resolves the target by
position, and the accompanying `sender_email` string is ignored — the
resolution result is unchanged under any substitution of the sender
parameter, and no provider call is made. -/
theorem index_wins_over_sender (parameters : Params) (ctx : List Email)
    (e : Email)
    (hd : pyIsDigit parameters.email_index = true)
    (h1 : 1 ≤ pyToNat parameters.email_index)
    (he : ctx.get? (pyToNat parameters.email_index - 1) = some e) :
    replyContextTarget parameters ctx = some e
    ∧ deleteContextTarget parameters ctx = some e
    ∧ (∀ s, replyContextTarget { parameters with sender_email := s } ctx =
        some e)
    ∧ (∀ s, deleteContextTarget { parameters with sender_email := s } ctx =
        some e)
    ∧ ∀ env : Env, replyResolve env parameters ctx = (some e, [])
        ∧ deleteResolve env parameters ctx = (some e, []) := by
  obtain ⟨hlt, -⟩ := List.get?_eq_some.mp he
  have hne : ctx.isEmpty = false := by
    cases ctx with
    | nil => simp at he
    | cons a t => rfl
  have key : ∀ p : Params, p.email_index = parameters.email_index →
      replyContextTarget p ctx = some e ∧ deleteContextTarget p ctx = some e := by
    intro p hp
    have hd' : pyIsDigit p.email_index = true := by rw [hp]; exact hd
    have hidx : contextIndexTarget p.email_index ctx = some e := by
      rw [hp, contextIndexTarget_in_range parameters.email_index ctx h1 hlt]
      exact he
    constructor
    · simp [replyContextTarget, hne, hd', hidx]
    · simp [deleteContextTarget, hne, hd', hidx]
  refine ⟨(key parameters rfl).1, (key parameters rfl).2,
    fun s => (key { parameters with sender_email := s } rfl).1,
    fun s => (key { parameters with sender_email := s } rfl).2,
    fun env => ⟨?_, ?_⟩⟩
  · simp [replyResolve, (key parameters rfl).1]
  · simp [deleteResolve, (key parameters rfl).2]

/-- Witness for C6: index "1" with a contradicting sender string still
selects the first context email, for reply and delete, with and without a
sender string that would match a different email, and without provider
calls. -/
theorem index_wins_over_sender_witness :
    replyContextTarget { email_index := "1", sender_email := "notB" }
      [emailAlice, emailBob, emailCarol] = some emailAlice
    ∧ deleteContextTarget { email_index := "1", sender_email := "notB" }
        [emailAlice, emailBob, emailCarol] = some emailAlice
    ∧ replyContextTarget { email_index := "1", sender_email := "bob" }
        [emailAlice, emailBob, emailCarol] = some emailAlice
    ∧ deleteContextTarget { email_index := "1", sender_email := "bob" }
        [emailAlice, emailBob, emailCarol] = some emailAlice
    ∧ replyResolve (baseTestEnv {}) { email_index := "1", sender_email := "notB" }
        [emailAlice, emailBob, emailCarol] = (some emailAlice, [])
    ∧ deleteResolve (baseTestEnv {}) { email_index := "1", sender_email := "notB" }
        [emailAlice, emailBob, emailCarol] = (some emailAlice, []) := by
  have h := index_wins_over_sender
    { email_index := "1", sender_email := "notB" }
    [emailAlice, emailBob, emailCarol] emailAlice
    (by decide) (by decide) (by decide)
  exact ⟨h.1, h.2.1, h.2.2.1 "bob", h.2.2.2.1 "bob",
    (h.2.2.2.2 (baseTestEnv {})).1, (h.2.2.2.2 (baseTestEnv {})).2⟩

/-- Counterexample to C4 as stated: with context `[emailAlice]`, an
out-of-range digit index "5" and sender string "alice", the context sender
scan would find Alice's email (first conjunct), yet the dispatcher answers
with an `error` envelope after going straight to the provider sender
search — the claimed context scan never runs. -/
theorem reply_index_fallthrough_counterexample :
    ([emailAlice].find? fun e =>
      strContains (pyLower e.sender_email) (pyLower "alice")).isSome = true
    ∧ (process_chat_message envReplyIdx5 "reply to alice"
        [emailAlice]).fst.action = some "error"
    ∧ (process_chat_message envReplyIdx5 "reply to alice" [emailAlice]).snd =
        [GmailCall.findSender "alice"] := by decide

/-- Amended C4: in the reply branch, a digit `email_index` whose zero-based
conversion falls outside the non-empty context list leaves the context
resolution empty — the context sender scan is skipped entirely — and, when
`sender_email` is present, resolution proceeds directly to the provider
find-by-sender query, the request's only provider call. -/
theorem reply_out_of_range_skips_context_scan (env : Env) (message : String)
    (ctx : List Email)
    (hb : selectBranch (env.classify message ctx).intent
      (normalizeMessage message) = Branch.reply)
    (hne : ctx.isEmpty = false)
    (hd : pyIsDigit (env.classify message ctx).parameters.email_index = true)
    (hout : contextIndexTarget (env.classify message ctx).parameters.email_index
      ctx = none)
    (hs : (env.classify message ctx).parameters.sender_email ≠ "") :
    replyContextTarget (env.classify message ctx).parameters ctx = none
    ∧ replyResolve env (env.classify message ctx).parameters ctx =
        (env.findBySender (env.classify message ctx).parameters.sender_email,
         [GmailCall.findSender
           (env.classify message ctx).parameters.sender_email])
    ∧ (process_chat_message env message ctx).snd =
        [GmailCall.findSender
          (env.classify message ctx).parameters.sender_email] := by
  have h1 : replyContextTarget (env.classify message ctx).parameters ctx =
      none := by
    simp [replyContextTarget, hne, hd, hout]
  have h2 : replyResolve env (env.classify message ctx).parameters ctx =
      (env.findBySender (env.classify message ctx).parameters.sender_email,
       [GmailCall.findSender
         (env.classify message ctx).parameters.sender_email]) := by
    simp [replyResolve, h1, hs]
  refine ⟨h1, h2, ?_⟩
  rw [dispatch_reply env message ctx hb]
  simp only [replyBranch, h2]
  cases env.findBySender (env.classify message ctx).parameters.sender_email <;>
    rfl

/-- Witness for the amended C4 at the counterexample's input. -/
theorem reply_out_of_range_skips_context_scan_witness :
    replyContextTarget { sender_email := "alice", email_index := "5" }
      [emailAlice] = none
    ∧ replyResolve envReplyIdx5 { sender_email := "alice", email_index := "5" }
        [emailAlice] =
        (envReplyIdx5.findBySender "alice", [GmailCall.findSender "alice"])
    ∧ (process_chat_message envReplyIdx5 "reply to alice" [emailAlice]).snd =
        [GmailCall.findSender "alice"] :=
  reply_out_of_range_skips_context_scan envReplyIdx5 "reply to alice"
    [emailAlice] (by decide) (by decide) (by decide) (by decide) (by decide)

/-- Counterexample to C5 as stated: both `sender_email` and
`subject_keyword` are present, the provider sender search returns nothing,
and the provider subject search would succeed (first conjunct) — yet the
dispatcher reports an `error` and the trace shows the subject search was
never attempted. -/
theorem delete_provider_fallback_counterexample :
    envDeleteSenderSubject.findBySubject "invoice" = some emailBob
    ∧ (process_chat_message envDeleteSenderSubject "delete it" []).fst.action =
        some "error"
    ∧ (process_chat_message envDeleteSenderSubject "delete it" []).snd =
        [GmailCall.findSender "bob@x.com"] := by decide

/-- Amended C5: when the context chain finds no delete target, the
provider-side fallback is chosen on key presence — with `sender_email`
present only the find-by-sender query runs and its result is final (an
empty result yields the error envelope, with no subject search in the
trace); the find-by-subject query runs only when `sender_email` is absent
and `subject_keyword` is present. -/
theorem delete_provider_fallback_order (env : Env) (message : String)
    (ctx : List Email)
    (hb : selectBranch (env.classify message ctx).intent
      (normalizeMessage message) = Branch.delete)
    (h0 : deleteContextTarget (env.classify message ctx).parameters ctx = none)
    (hs : (env.classify message ctx).parameters.sender_email ≠ "") :
    deleteResolve env (env.classify message ctx).parameters ctx =
      (env.findBySender (env.classify message ctx).parameters.sender_email,
       [GmailCall.findSender (env.classify message ctx).parameters.sender_email])
    ∧ (process_chat_message env message ctx).snd =
        [GmailCall.findSender
          (env.classify message ctx).parameters.sender_email]
    ∧ (env.findBySender (env.classify message ctx).parameters.sender_email =
        none →
        (process_chat_message env message ctx).fst.action = some "error")
    ∧ ∀ q : Params, deleteContextTarget q ctx = none → q.sender_email = "" →
        q.subject_keyword ≠ "" →
        deleteResolve env q ctx =
          (env.findBySubject q.subject_keyword,
           [GmailCall.findSubject q.subject_keyword]) := by
  have h2 : deleteResolve env (env.classify message ctx).parameters ctx =
      (env.findBySender (env.classify message ctx).parameters.sender_email,
       [GmailCall.findSender
         (env.classify message ctx).parameters.sender_email]) := by
    simp [deleteResolve, h0, hs]
  refine ⟨h2, ?_, ?_, ?_⟩
  · rw [dispatch_delete env message ctx hb]
    simp only [deleteBranch, h2]
    cases env.findBySender (env.classify message ctx).parameters.sender_email <;>
      rfl
  · intro hn
    rw [dispatch_delete env message ctx hb]
    simp [deleteBranch, h2, hn]
  · intro q hq0 hqs hqk
    simp [deleteResolve, hq0, hqs, hqk]

/-- Witness for the amended C5 at the counterexample's input, including
the subject-only provider fallback. -/
theorem delete_provider_fallback_order_witness :
    deleteResolve envDeleteSenderSubject
      { sender_email := "bob@x.com", subject_keyword := "invoice" } [] =
      (envDeleteSenderSubject.findBySender "bob@x.com",
       [GmailCall.findSender "bob@x.com"])
    ∧ (process_chat_message envDeleteSenderSubject "delete it" []).snd =
        [GmailCall.findSender "bob@x.com"]
    ∧ (process_chat_message envDeleteSenderSubject "delete it" []).fst.action =
        some "error"
    ∧ deleteResolve envDeleteSenderSubject { subject_keyword := "invoice" } [] =
        (envDeleteSenderSubject.findBySubject "invoice",
         [GmailCall.findSubject "invoice"]) := by
  have h := delete_provider_fallback_order envDeleteSenderSubject "delete it" []
    (by decide) (by decide) (by decide)
  exact ⟨h.1, h.2.1, h.2.2.1 (by decide),
    h.2.2.2 { subject_keyword := "invoice" } (by decide) rfl (by decide)⟩

/-- Claim C2: with the classifier returning "unknown" (as it does whenever
it errors), a whole-word keyword match alone routes the message, the
branches being tested in the fixed priority order read, reply, delete,
digest with the first true condition winning; and the keyword test is
word-boundary-safe — it holds exactly when some keyword occurs in the
message as a whole word, never for a bare substring occurrence. -/
theorem keyword_routing (env : Env) (message : String)
    (email_context : List Email)
    (hunk : (env.classify message email_context).intent = "unknown") :
    (_has_keyword (normalizeMessage message) ["read", "show", "fetch"] = true →
      (process_chat_message env message email_context).fst.action =
        some "display_emails")
    ∧ (_has_keyword (normalizeMessage message) ["read", "show", "fetch"] = false →
       _has_keyword (normalizeMessage message) ["reply", "respond"] = true →
      ((process_chat_message env message email_context).fst.action =
          some "display_reply"
       ∨ (process_chat_message env message email_context).fst.action =
          some "error"))
    ∧ (_has_keyword (normalizeMessage message) ["read", "show", "fetch"] = false →
       _has_keyword (normalizeMessage message) ["reply", "respond"] = false →
       _has_keyword (normalizeMessage message) ["delete", "remove"] = true →
      ((process_chat_message env message email_context).fst.action =
          some "confirm_delete"
       ∨ (process_chat_message env message email_context).fst.action =
          some "error"))
    ∧ (_has_keyword (normalizeMessage message) ["read", "show", "fetch"] = false →
       _has_keyword (normalizeMessage message) ["reply", "respond"] = false →
       _has_keyword (normalizeMessage message) ["delete", "remove"] = false →
       _has_keyword (normalizeMessage message) ["digest", "summary"] = true →
      (process_chat_message env message email_context).fst.action =
        some "display_digest")
    ∧ ∀ text keywords, _has_keyword text keywords = true ↔
        ∃ kw ∈ keywords, occursAsWord kw.data text.data := by
  refine ⟨?_, ?_, ?_, ?_, fun text keywords => _has_keyword_iff text keywords⟩
  · intro k1
    have hb : selectBranch (env.classify message email_context).intent
        (normalizeMessage message) = Branch.read := by
      simp [selectBranch, hunk, k1]
    rw [dispatch_read env message email_context hb]
    rfl
  · intro k1 k2
    have hb : selectBranch (env.classify message email_context).intent
        (normalizeMessage message) = Branch.reply := by
      simp [selectBranch, hunk, k1, k2]
    rw [dispatch_reply env message email_context hb]
    cases ht : (replyResolve env (env.classify message email_context).parameters
        email_context).fst with
    | some e =>
      left
      simp [replyBranch, ht]
    | none =>
      right
      simp [replyBranch, ht]
  · intro k1 k2 k3
    have hb : selectBranch (env.classify message email_context).intent
        (normalizeMessage message) = Branch.delete := by
      simp [selectBranch, hunk, k1, k2, k3]
    rw [dispatch_delete env message email_context hb]
    cases ht : (deleteResolve env (env.classify message email_context).parameters
        email_context).fst with
    | some e =>
      left
      simp [deleteBranch, ht]
    | none =>
      right
      simp [deleteBranch, ht]
  · intro k1 k2 k3 k4
    have hb : selectBranch (env.classify message email_context).intent
        (normalizeMessage message) = Branch.digest := by
      simp [selectBranch, hunk, k1, k2, k3, k4]
    rw [dispatch_digest env message email_context hb]
    rfl

/-- Witness for C2: with an unknown classifier result, the keyword
"remove" routes to the delete branch; and the word-boundary
characterization at a message where "delete"/"remove" occur only inside
longer words. -/
theorem keyword_routing_witness :
    ((process_chat_message (baseTestEnv {}) "please remove it" []).fst.action =
        some "confirm_delete"
     ∨ (process_chat_message (baseTestEnv {}) "please remove it" []).fst.action =
        some "error")
    ∧ (_has_keyword "the undeleted remover" ["delete", "remove"] = true ↔
        ∃ kw ∈ ["delete", "remove"],
          occursAsWord kw.data ("the undeleted remover" : String).data) := by
  have h := keyword_routing (baseTestEnv {}) "please remove it" [] (by decide)
  exact ⟨h.2.2.1 (by decide) (by decide) (by decide),
    h.2.2.2.2 "the undeleted remover" ["delete", "remove"]⟩

/-- Claim C7: in the read branch, a summarization failure is isolated per
email — with the fetched batch `emails` and the summarization call
throwing exactly for position `j`, the `display_emails` payload still
lists the whole batch, position `j` carrying the fixed placeholder and
every other position its real summary. -/
theorem read_summary_isolation (env : Env) (message : String)
    (email_context : List Email)
    (hb : selectBranch (env.classify message email_context).intent
      (normalizeMessage message) = Branch.read)
    (emails : List Email)
    (hem : env.recentEmails (readMaxResults (normalizeMessage message)) =
      emails)
    (j : Nat) (hj : j < emails.length) (errMsg : String) (s : Nat → String)
    (herr : env.summarize (emails.get ⟨j, hj⟩).body (emails.get ⟨j, hj⟩).subject
      (emails.get ⟨j, hj⟩).sender_name = Except.error errMsg)
    (hok : ∀ i, ∀ hi : i < emails.length, i ≠ j →
      env.summarize (emails.get ⟨i, hi⟩).body (emails.get ⟨i, hi⟩).subject
        (emails.get ⟨i, hi⟩).sender_name = Except.ok (s i)) :
    (process_chat_message env message email_context).fst.action =
      some "display_emails"
    ∧ (process_chat_message env message email_context).fst.data =
        some (RespData.emails (summarizeEmails env.summarize emails))
    ∧ (summarizeEmails env.summarize emails).length = emails.length
    ∧ (summarizeEmails env.summarize emails).get? j =
        some (emails.get ⟨j, hj⟩, summaryPlaceholder)
    ∧ ∀ i, ∀ hi : i < emails.length, i ≠ j →
        (summarizeEmails env.summarize emails).get? i =
          some (emails.get ⟨i, hi⟩, s i) := by
  rw [dispatch_read env message email_context hb]
  refine ⟨rfl, ?_, ?_, ?_, ?_⟩
  · simp only [readBranch]
    rw [hem]
  · simp [summarizeEmails]
  · simp only [summarizeEmails]
    rw [List.get?_map, List.get?_eq_get hj]
    rw [List.get_eq_getElem] at herr
    simp [herr]
  · intro i hi hne
    simp only [summarizeEmails]
    rw [List.get?_map, List.get?_eq_get hi]
    have hone := hok i hi hne
    rw [List.get_eq_getElem] at hone
    simp [hone]

/-- Witness for C7: five fetched emails, summarization throws exactly for
the one whose body is "body2"; the response lists all five, that one with
the placeholder, another with its real summary. -/
theorem read_summary_isolation_witness :
    (process_chat_message envReadFail "show my inbox" []).fst.action =
      some "display_emails"
    ∧ (process_chat_message envReadFail "show my inbox" []).fst.data =
        some (RespData.emails (summarizeEmails envReadFail.summarize emailsFive))
    ∧ (summarizeEmails envReadFail.summarize emailsFive).length =
        emailsFive.length
    ∧ (summarizeEmails envReadFail.summarize emailsFive).get? 2 =
        some (mkEmail 2, summaryPlaceholder)
    ∧ (summarizeEmails envReadFail.summarize emailsFive).get? 4 =
        some (mkEmail 4, "sum body4") := by
  have h := read_summary_isolation envReadFail "show my inbox" [] (by decide)
    emailsFive (by decide) 2 (by decide) "boom"
    (fun i => "sum body" ++ toString i) (by decide) (by decide)
  exact ⟨h.1, h.2.1, h.2.2.1, h.2.2.2.1, h.2.2.2.2 4 (by decide) (by decide)⟩

/-- Claim C10: the provider lookup primitives catch `HttpError` — an error
on either underlying call yields `None` instead of raising, for both the
sender and the subject search — and a reply or delete resolution that
reaches the provider and comes back empty ends in the resolution-miss
envelope (action "error" with the guidance message), not in a propagated
transport error. -/
theorem provider_lookup_never_raises (e1 e2 m : String) (ms : List String)
    (g : String → GmailResult Email) (env : Env) (message : String)
    (ctx : List Email)
    (hb : selectBranch (env.classify message ctx).intent
      (normalizeMessage message) = Branch.reply)
    (hctx : replyContextTarget (env.classify message ctx).parameters ctx = none)
    (hs : (env.classify message ctx).parameters.sender_email ≠ "")
    (hnone : env.findBySender (env.classify message ctx).parameters.sender_email
      = none) :
    find_email_by_sender (GmailResult.httpError e1) g = none
    ∧ find_email_by_sender (GmailResult.ok (m :: ms))
        (fun _ => GmailResult.httpError e2) = none
    ∧ find_email_by_subject (GmailResult.httpError e1) g = none
    ∧ find_email_by_subject (GmailResult.ok (m :: ms))
        (fun _ => GmailResult.httpError e2) = none
    ∧ (process_chat_message env message ctx).fst.action = some "error"
    ∧ (process_chat_message env message ctx).fst.message = replyMissMessage
    ∧ ∀ env2 msg2 ctx2,
        selectBranch ((env2 : Env).classify msg2 ctx2).intent
          (normalizeMessage msg2) = Branch.delete →
        deleteContextTarget (env2.classify msg2 ctx2).parameters ctx2 = none →
        (env2.classify msg2 ctx2).parameters.sender_email ≠ "" →
        env2.findBySender (env2.classify msg2 ctx2).parameters.sender_email =
          none →
        (process_chat_message env2 msg2 ctx2).fst.action = some "error"
        ∧ (process_chat_message env2 msg2 ctx2).fst.message =
            deleteMissMessage := by
  have h2 : replyResolve env (env.classify message ctx).parameters ctx =
      (none, [GmailCall.findSender
        (env.classify message ctx).parameters.sender_email]) := by
    simp [replyResolve, hctx, hs, hnone]
  refine ⟨rfl, rfl, rfl, rfl, ?_, ?_, ?_⟩
  · rw [dispatch_reply env message ctx hb]
    simp [replyBranch, h2]
  · rw [dispatch_reply env message ctx hb]
    simp [replyBranch, h2]
  · intro env2 msg2 ctx2 hb2 h02 hs2 hn2
    have h3 : deleteResolve env2 (env2.classify msg2 ctx2).parameters ctx2 =
        (none, [GmailCall.findSender
          (env2.classify msg2 ctx2).parameters.sender_email]) := by
      simp [deleteResolve, h02, hs2, hn2]
    rw [dispatch_delete env2 msg2 ctx2 hb2]
    exact ⟨by simp [deleteBranch, h3], by simp [deleteBranch, h3]⟩

/-- Witness for C10: the four lookup outcomes at concrete errors, a reply
request whose provider search comes back empty, and a delete request
whose provider search comes back empty. -/
theorem provider_lookup_never_raises_witness :
    find_email_by_sender (GmailResult.httpError "boom")
      (fun _ => GmailResult.httpError "boom2") = none
    ∧ find_email_by_sender (GmailResult.ok ["m1"])
        (fun _ => GmailResult.httpError "boom2") = none
    ∧ find_email_by_subject (GmailResult.httpError "boom")
        (fun _ => GmailResult.httpError "boom2") = none
    ∧ find_email_by_subject (GmailResult.ok ["m1"])
        (fun _ => GmailResult.httpError "boom2") = none
    ∧ (process_chat_message
        envReplyProviderMiss "hello" []).fst.action
        = some "error"
    ∧ (process_chat_message
        envReplyProviderMiss "hello" []).fst.message
        = replyMissMessage
    ∧ (process_chat_message envDeleteSenderSubject "delete it" []).fst.action =
        some "error"
    ∧ (process_chat_message envDeleteSenderSubject "delete it" []).fst.message =
        deleteMissMessage := by
  have h := provider_lookup_never_raises "boom" "boom2" "m1" []
    (fun _ => GmailResult.httpError "boom2")
    envReplyProviderMiss "hello" []
    (by decide) (by decide) (by decide) (by decide)
  have hd := h.2.2.2.2.2.2 envDeleteSenderSubject "delete it" []
    (by decide) (by decide) (by decide) (by decide)
  exact ⟨h.1, h.2.1, h.2.2.1, h.2.2.2.1, h.2.2.2.2.1, h.2.2.2.2.2.1,
    hd.1, hd.2⟩
